import Mathlib

/-!
Verification of the realtime voice session core of the interview-ai
repository.  The definitions below are a shallow embedding of the
relevant source functions: `startRecording`, `stopRecording`,
`changeTurnEndType`, the `realtime.event` handler and the book-generation
trigger from `src/pages/ConsolePage.tsx`; `sendToGPT4` from
`src/utils/conversation_config.js`; and the startup check plus the
`/api/gpt4` handler of the relay/express server.
-/

namespace InterviewAI

/-- Currently playing assistant audio track of the stream player:
its id, the number of samples enqueued, and the number already played. -/
structure Track where
  trackId : String
  enqueued : Nat
  played : Nat
deriving DecidableEq, Repr

/-- Recorder status, as reported by `wavRecorder.getStatus()`. -/
inductive RecStatus where
  | ended
  | paused
  | recording
deriving DecidableEq, Repr

/-- Modelled from the spec: `WavStreamPlayer.interrupt` (the wavtools
library under `src/lib/wavtools` is not among the provided sources).  The
spec says a Track "exposes a played sample offset used to compute exactly
where playback was interrupted"; `interrupt` stops playback and reports
the current track's id together with that offset, or nothing when no
track is playing. -/
def WavStreamPlayer.interrupt (player : Option Track) :
    Option (String × Nat) × Option Track :=
  match player with
  | some t => (some (t.trackId, t.played), none)
  | none => (none, none)

/-- Observable operations performed by the console handlers, in program
order. -/
inductive Action where
  | interruptPlayback
  | cancelResponse (trackId : String) (offset : Nat)
  | recordStart
  | pauseRecorder
  | createResponse
  | updateSessionTurnDetection (serverVad : Bool)
deriving DecidableEq, Repr

/-- The slice of ConsolePage state the push-to-talk handlers touch. -/
structure ConsoleState where
  isRecording : Bool
  player : Option Track
  recorderStatus : RecStatus
  canPushToTalk : Bool
deriving DecidableEq, Repr

/-- Embedding of `startRecording` (ConsolePage.tsx lines 258-274): guard
on `isRecording`, set it, interrupt the player, send `cancelResponse`
with the reported track id and offset when the id is truthy, then start
the recorder.  The returned list is the trace of operations in program
order. -/
def startRecording (s : ConsoleState) : ConsoleState × List Action :=
  if s.isRecording then (s, [])
  else
    let s₁ := { s with isRecording := true }
    let (trackSampleOffset, player') := WavStreamPlayer.interrupt s₁.player
    let s₂ := { s₁ with player := player' }
    match trackSampleOffset with
    | some (trackId, offset) =>
      if trackId ≠ "" then
        ({ s₂ with recorderStatus := .recording },
         [Action.interruptPlayback, Action.cancelResponse trackId offset,
          Action.recordStart])
      else
        ({ s₂ with recorderStatus := .recording },
         [Action.interruptPlayback, Action.recordStart])
    | none =>
      ({ s₂ with recorderStatus := .recording },
       [Action.interruptPlayback, Action.recordStart])

/-- Embedding of `stopRecording` (ConsolePage.tsx lines 279-288): guard
on `!isRecording`, clear it, pause the recorder, call
`createResponse`. -/
def stopRecording (s : ConsoleState) : ConsoleState × List Action :=
  if !s.isRecording then (s, [])
  else
    ({ s with isRecording := false, recorderStatus := .paused },
     [Action.pauseRecorder, Action.createResponse])

/-- Embedding of `changeTurnEndType` (ConsolePage.tsx lines 293-307).
The recorder is paused only when the target value is `'none'` and the
recorder is recording; the session is then reconfigured
(`turn_detection: value === 'none' ? null : { type: 'server_vad' }`),
and for `'server_vad'` while connected the recorder is (re)started. -/
def changeTurnEndType (value : String) (connected : Bool)
    (s : ConsoleState) : ConsoleState × List Action :=
  let (s₁, acts₁) :=
    if value == "none" && s.recorderStatus == RecStatus.recording then
      ({ s with recorderStatus := .paused }, [Action.pauseRecorder])
    else (s, [])
  let acts₂ := acts₁ ++ [Action.updateSessionTurnDetection (value != "none")]
  let (s₂, acts₃) :=
    if value == "server_vad" && connected then
      ({ s₁ with recorderStatus := .recording }, acts₂ ++ [Action.recordStart])
    else (s₁, acts₂)
  ({ s₂ with canPushToTalk := value == "none" }, acts₃)

/-- C1: in manual push-to-talk mode, when a recording starts while a
track with nonempty id is playing with M of N samples played, the trace
is interrupt, then `cancelResponse` with exactly that id and offset M,
then microphone capture; and when no track is playing no `cancelResponse`
appears in the trace. -/
theorem startRecording_cancel_offset (s : ConsoleState)
    (hrec : s.isRecording = false) :
    (∀ tid N M, M < N → tid ≠ "" → s.player = some ⟨tid, N, M⟩ →
      (startRecording s).2 =
        [Action.interruptPlayback, Action.cancelResponse tid M,
         Action.recordStart]) ∧
    (s.player = none →
      ∀ tid off, Action.cancelResponse tid off ∉ (startRecording s).2) := by
  constructor
  · intro tid N M _ htid hp
    simp [startRecording, hrec, hp, WavStreamPlayer.interrupt, htid]
  · intro hp tid off
    simp [startRecording, hrec, hp, WavStreamPlayer.interrupt]

/-- Witness for C1 at a concrete state: a track `t1` with 5 of 10 samples
played yields exactly `cancelResponse t1 5` before capture. -/
theorem startRecording_cancel_offset_witness :
    (startRecording ⟨false, some ⟨"t1", 10, 5⟩, .paused, true⟩).2 =
      [Action.interruptPlayback, Action.cancelResponse "t1" 5,
       Action.recordStart] :=
  (startRecording_cancel_offset ⟨false, some ⟨"t1", 10, 5⟩, .paused, true⟩
    rfl).1 "t1" 10 5 (by decide) (by decide) rfl

/-- C2: every stop of an active recording pauses the recorder and then
calls `createResponse`; the trace contains `createResponse` exactly
once. -/
theorem stopRecording_single_createResponse (s : ConsoleState)
    (hrec : s.isRecording = true) :
    (stopRecording s).2 = [Action.pauseRecorder, Action.createResponse] ∧
    (stopRecording s).2.count Action.createResponse = 1 := by
  simp [stopRecording, hrec, List.count_cons]

/-- Witness for C2 at a concrete recording state. -/
theorem stopRecording_single_createResponse_witness :
    (stopRecording ⟨true, none, .recording, true⟩).2 =
      [Action.pauseRecorder, Action.createResponse] :=
  (stopRecording_single_createResponse ⟨true, none, .recording, true⟩ rfl).1

/-- C10: `startRecording` while already recording does nothing (same
state, empty trace), `stopRecording` while not recording does nothing,
and each operation immediately repeated is equivalent to a single
invocation: the second run changes nothing and emits nothing. -/
theorem recording_toggle_idempotent (s : ConsoleState) :
    (s.isRecording = true → startRecording s = (s, [])) ∧
    (s.isRecording = false → stopRecording s = (s, [])) ∧
    startRecording (startRecording s).1 = ((startRecording s).1, []) ∧
    stopRecording (stopRecording s).1 = ((stopRecording s).1, []) := by
  refine ⟨fun h => by simp [startRecording, h],
          fun h => by simp [stopRecording, h], ?_, ?_⟩
  · by_cases h : s.isRecording
    · simp [startRecording, h]
    · simp only [Bool.not_eq_true] at h
      cases hp : s.player with
      | none => simp [startRecording, h, hp, WavStreamPlayer.interrupt]
      | some t =>
        by_cases htid : t.trackId = ""
        · simp [startRecording, h, hp, WavStreamPlayer.interrupt, htid]
        · simp [startRecording, h, hp, WavStreamPlayer.interrupt, htid]
  · by_cases h : s.isRecording
    · simp [stopRecording, h]
    · simp [stopRecording, h]

/-- Witness for C10 at a concrete state. -/
theorem recording_toggle_idempotent_witness :
    startRecording ⟨true, none, .recording, true⟩ =
      (⟨true, none, .recording, true⟩, []) :=
  (recording_toggle_idempotent ⟨true, none, .recording, true⟩).1 rfl

/-- C3 counterexample: switching to `'server_vad'` while the recorder is
actively recording never pauses the recorder — the trace of
`changeTurnEndType "server_vad"` on a recording state contains no
`pauseRecorder` at all, so in particular none before the session
reconfiguration. -/
theorem changeTurnEndType_vad_no_pause_cex :
    (changeTurnEndType "server_vad" true
        ⟨true, none, .recording, true⟩).2 =
      [Action.updateSessionTurnDetection true, Action.recordStart] ∧
    Action.pauseRecorder ∉
      (changeTurnEndType "server_vad" true
        ⟨true, none, .recording, true⟩).2 := by
  constructor
  · rfl
  · decide

/-- C3 amended: only a switch to `'none'` pauses an actively recording
recorder, and then the pause does come before the session
reconfiguration; a switch to `'server_vad'` performs no pause (it
reconfigures and then, when connected, starts recording). -/
theorem changeTurnEndType_pause_policy (connected : Bool)
    (s : ConsoleState) (hrec : s.recorderStatus = RecStatus.recording) :
    (changeTurnEndType "none" connected s).2 =
      [Action.pauseRecorder, Action.updateSessionTurnDetection false] ∧
    Action.pauseRecorder ∉ (changeTurnEndType "server_vad" connected s).2 := by
  constructor
  · simp [changeTurnEndType, hrec]
  · cases connected <;> simp [changeTurnEndType, hrec]

/-- Witness for C3 amended at a concrete recording state. -/
theorem changeTurnEndType_pause_policy_witness :
    (changeTurnEndType "none" true ⟨true, none, .recording, false⟩).2 =
      [Action.pauseRecorder, Action.updateSessionTurnDetection false] :=
  (changeTurnEndType_pause_policy true ⟨true, none, .recording, false⟩
    rfl).1

/-! Relay/express server startup (`relay-server/index.js` and the
unnamed server variant): the `OPENAI_API_KEY` check and ports. -/

/-- JavaScript truthiness of an environment variable / storage read:
`undefined` (absent) and the empty string are falsy. -/
def jsTruthy : Option String → Bool
  | none => false
  | some s => !(s == "")

/-- Environment of the relay process: variable name to value. -/
abbrev Env := List (String × String)

/-- Lookup of `process.env.NAME`. -/
def envLookup (env : Env) (name : String) : Option String :=
  (env.find? (fun e => e.1 == name)).map (·.2)

/-- Port computation `parseInt(process.env.PORT) || 8081`: a
non-numeric or absent or zero value falls back to 8081. -/
def portOf (env : Env) : Nat :=
  match envLookup env "PORT" with
  | some s =>
    match s.toNat? with
    | some n => if n == 0 then 8081 else n
    | none => 8081
  | none => 8081

/-- Outcome of running the relay server's top level. -/
inductive StartupResult where
  | exited (code : Nat) (loggedError : Bool)
  | listening (port : Nat) (relayKey : String)
deriving DecidableEq, Repr

/-- Embedding of the relay server's startup (index.js lines 9-17 and
onward): read `OPENAI_API_KEY`; if it is falsy, log an error and
`process.exit(1)`; otherwise construct the relay with that key and
listen. -/
def relayStartup (env : Env) : StartupResult :=
  let apiKeyVar := envLookup env "OPENAI_API_KEY"
  if !jsTruthy apiKeyVar then .exited 1 true
  else .listening (portOf env) (apiKeyVar.getD "")

/-- C6 counterexample: an environment in which `OPENAI_API_KEY` is
present but set to the empty string is rejected — the variable is not
absent, yet the process still logs and exits with status 1, so
"if the credential is present, the process does not exit" fails. -/
theorem relayStartup_empty_key_cex :
    envLookup [("OPENAI_API_KEY", "")] "OPENAI_API_KEY" = some "" ∧
    relayStartup [("OPENAI_API_KEY", "")] = .exited 1 true := by
  constructor <;> rfl

/-- C6 amended: if `OPENAI_API_KEY` is absent or empty the relay logs an
error and exits with status 1 before listening; if it is set to a
nonempty value the process does not exit for this reason and proceeds to
listen. -/
theorem relayStartup_key_check (env : Env) :
    (envLookup env "OPENAI_API_KEY" = none ∨
       envLookup env "OPENAI_API_KEY" = some "" →
      relayStartup env = .exited 1 true) ∧
    (∀ k, envLookup env "OPENAI_API_KEY" = some k → k ≠ "" →
      relayStartup env = .listening (portOf env) k) := by
  constructor
  · rintro (h | h) <;> simp [relayStartup, h, jsTruthy]
  · intro k hk hne
    simp [relayStartup, hk, jsTruthy, hne]

/-- Witness for C6 amended: missing key exits 1; key "sk-test" listens
on the default port 8081. -/
theorem relayStartup_key_check_witness :
    relayStartup [] = .exited 1 true ∧
    relayStartup [("OPENAI_API_KEY", "sk-test")] =
      .listening 8081 "sk-test" :=
  ⟨(relayStartup_key_check []).1 (Or.inl rfl),
   (relayStartup_key_check [("OPENAI_API_KEY", "sk-test")]).2 "sk-test" rfl
     (by decide)⟩

/-! ConsolePage initialization (lines 71-101): API key acquisition and
RealtimeClient construction. -/

/-- Configuration passed to the `RealtimeClient` constructor. -/
inductive ClientConfig where
  | relayUrl (url : String)
  | directApiKey (apiKey : String) (dangerouslyAllowAPIKeyInBrowser : Bool)
deriving DecidableEq, Repr

/-- Observable outcome of the ConsolePage key/client setup: the apiKey
value, whether `prompt` was shown, the value written to
localStorage under `tmp::voice_api_key` (if any), and the client
configuration. -/
structure ConsoleInit where
  apiKey : String
  promptShown : Bool
  storedKeyWrite : Option String
  clientConfig : ClientConfig
deriving DecidableEq, Repr

/-- Embedding of ConsolePage.tsx lines 71-101: when a local relay URL is
configured the apiKey is the empty string; otherwise it is the stored
key, else the prompt result, else empty (JS `||` chains on truthiness).
A nonempty apiKey is written back to localStorage.  The client is
constructed with `\x7b url \x7d` when a relay URL is configured and with
`\x7b apiKey, dangerouslyAllowAPIKeyInBrowser: true \x7d` otherwise. -/
def consolePageInit (localRelayServerUrl : String)
    (storedKey : Option String) (promptResult : Option String) :
    ConsoleInit :=
  let apiKey :=
    if localRelayServerUrl != "" then ""
    else if jsTruthy storedKey then storedKey.getD ""
    else if jsTruthy promptResult then promptResult.getD ""
    else ""
  let promptShown := localRelayServerUrl == "" && !jsTruthy storedKey
  let storedKeyWrite := if apiKey != "" then some apiKey else none
  let clientConfig :=
    if localRelayServerUrl != "" then ClientConfig.relayUrl localRelayServerUrl
    else ClientConfig.directApiKey apiKey true
  ⟨apiKey, promptShown, storedKeyWrite, clientConfig⟩

/-- C7: with a local relay server URL configured, the browser never sees
the upstream credential: the apiKey is empty, the user is not prompted,
nothing is written under `tmp::voice_api_key`, and the client is
constructed with only the relay URL; the relay process itself takes the
credential from its own environment variable `OPENAI_API_KEY`. -/
theorem relay_mode_no_key_exposure (url : String)
    (storedKey promptResult : Option String) (env : Env) (k : String)
    (hurl : url ≠ "")
    (hk : envLookup env "OPENAI_API_KEY" = some k) (hne : k ≠ "") :
    consolePageInit url storedKey promptResult =
      ⟨"", false, none, ClientConfig.relayUrl url⟩ ∧
    relayStartup env = .listening (portOf env) k := by
  constructor
  · simp [consolePageInit, hurl]
  · simp [relayStartup, hk, jsTruthy, hne]

/-- Witness for C7 at the documented relay URL, with a stale stored key
and a would-be prompt answer present: neither is used and nothing is
written. -/
theorem relay_mode_no_key_exposure_witness :
    consolePageInit "http://localhost:8081" (some "old-key") (some "typed") =
      ⟨"", false, none, ClientConfig.relayUrl "http://localhost:8081"⟩ ∧
    relayStartup [("OPENAI_API_KEY", "sk-live")] =
      .listening 8081 "sk-live" :=
  relay_mode_no_key_exposure "http://localhost:8081" (some "old-key")
    (some "typed") [("OPENAI_API_KEY", "sk-live")] "sk-live"
    (by decide) rfl (by decide)

/-! Book generation: `sendToGPT4` (conversation_config.js) on the
client, the `/api/gpt4` express handler on the server, and the
localStorage persistence in ConsolePage. -/

/-- Minimal JSON value model for the HTTP bodies exchanged by
`sendToGPT4` and the `/api/gpt4` handler. -/
inductive Json where
  | null
  | bool (b : Bool)
  | num (n : Int)
  | str (s : String)
  | arr (items : List Json)
  | obj (fields : List (String × Json))

/-- Field access `j.key` on an object, `undefined` otherwise. -/
def Json.getField : Json → String → Option Json
  | .obj fields, key => (fields.find? (fun f => f.1 == key)).map (·.2)
  | _, _ => none

/-- First element `j[0]` of an array. -/
def Json.headItem : Json → Option Json
  | .arr (x :: _) => some x
  | _ => none

/-- The value when it is a string. -/
def Json.asString : Json → Option String
  | .str s => some s
  | _ => none

/-- Request body built by `sendToGPT4` (conversation_config.js lines
34-40): `JSON.stringify` of a context string and the
`isBookGeneration` flag. -/
def sendToGPT4Body (conversationContext : String)
    (isBookGeneration : Bool) : Json :=
  .obj [("context", .str conversationContext),
        ("isBookGeneration", .bool isBookGeneration)]

/-- How `sendToGPT4` reads the generated text out of the endpoint's JSON
response: `data.choices[0].message.content` (conversation_config.js
line 49). -/
def sendToGPT4Extract (data : Json) : Option String :=
  ((((data.getField "choices").bind Json.headItem).bind
      (fun c => c.getField "message")).bind
      (fun m => m.getField "content")).bind Json.asString

/-- Shape of the upstream chat-completion body the `/api/gpt4` handler
receives from `api.openai.com`, parametrized by the assistant text. -/
def chatCompletionUpstream (content : String) : Json :=
  .obj [("id", .str "chatcmpl"),
        ("object", .str "chat.completion"),
        ("model", .str "gpt-4"),
        ("choices",
          .arr [.obj [("index", .num 0),
                      ("message",
                        .obj [("role", .str "assistant"),
                              ("content", .str content)]),
                      ("finish_reason", .str "stop")]])]

/-- Embedding of the `/api/gpt4` handler's success path (unnamed server
source, lines 59-96): `res.json(response.data)` forwards the upstream
chat-completion body verbatim. -/
def gpt4EndpointResponse (upstreamData : Json) : Json :=
  upstreamData

/-- Response shape stated by the spec for the book-generation endpoint:
an object with a single string field `content`.  Kept for comparison
with the shape the code actually produces. -/
def specBookResponse (content : String) : Json :=
  .obj [("content", .str content)]

/-- C4 counterexample: the endpoint's response is not an object of shape
with a `content` field — the handler forwards the upstream
chat-completion body, which has no `content` field — and the client
cannot obtain any text from a response of the spec's shape: its
extractor returns nothing on it. -/
theorem gpt4_response_not_content_shape_cex :
    (gpt4EndpointResponse (chatCompletionUpstream "book")).getField
        "content" = none ∧
    sendToGPT4Extract (specBookResponse "book") = none := by
  constructor <;> rfl

/-- C4 amended: the client POSTs `context` and `isBookGeneration` as
claimed, but the endpoint replies with the upstream chat-completion
object forwarded verbatim, and the client obtains the generated text
from `choices[0].message.content` of that object, not from a `content`
field. -/
theorem gpt4_roundtrip_shape (ctx content : String)
    (isBookGeneration : Bool) :
    sendToGPT4Body ctx isBookGeneration =
      .obj [("context", .str ctx),
            ("isBookGeneration", .bool isBookGeneration)] ∧
    gpt4EndpointResponse (chatCompletionUpstream content) =
      chatCompletionUpstream content ∧
    sendToGPT4Extract (gpt4EndpointResponse (chatCompletionUpstream content)) =
      some content := by
  exact ⟨rfl, rfl, rfl⟩

/-! Persistence: localStorage reads and writes in ConsolePage. -/

/-- Browser localStorage: key/value pairs of strings. -/
abbrev Store := List (String × String)

/-- `localStorage.getItem` (first matching key). -/
def getItem (st : Store) (key : String) : Option String :=
  (st.find? (fun e => e.1 == key)).map (·.2)

/-- `localStorage.setItem`: overwrite the value under `key`. -/
def setItem (st : Store) (key value : String) : Store :=
  (key, value) :: st.filter (fun e => e.1 != key)

/-- Conversation item as used by the book-generation path of
ConsolePage: id, role, and formatted text. -/
structure Item where
  id : String
  role : String
  formattedText : String
deriving DecidableEq, Repr

/-- Page state relevant to persistence. -/
structure PageState where
  items : List Item
  generatedBookContent : Option String
deriving DecidableEq, Repr

/-- Embedding of the ConsolePage state initialization (lines 122-139):
`useState<ItemType[]>([])` and `useState<string | null>(null)` — the
initial state is computed without reading the transcript or the book
text from storage, whatever the storage holds. -/
def pageLoadState (_storage : Store) : PageState :=
  ⟨[], none⟩

/-- The set of localStorage keys ConsolePage ever writes: the API key
cache (lines 76-78 and 165-172) and the generated book content
(line 579). -/
def consoleStorageKeysWritten : List String :=
  ["tmp::voice_api_key", "generatedBookContent"]

/-- Guard of the book-generation trigger (ConsolePage.tsx lines
587-592): items nonempty and the last item's role is `'user'`. -/
def shouldGenerateBook (items : List Item) : Bool :=
  decide (items.length > 0) &&
    ((items.getLast?.map (·.role)) == some "user")

/-- Embedding of `generateBookContent` (ConsolePage.tsx lines 557-584):
a no-op unless connected; on a successful `sendToGPT4` round trip the
response is stored in state and written to localStorage under
`generatedBookContent`; on failure the error is logged and nothing
changes. -/
def generateBookContent (connected : Bool) (storage : Store)
    (bookState : Option String) (gpt4Result : Except String String) :
    Store × Option String :=
  if !connected then (storage, bookState)
  else
    match gpt4Result with
    | .ok fullResponse =>
      (setItem storage "generatedBookContent" fullResponse,
       some fullResponse)
    | .error _ => (storage, bookState)

/-- Book-generation step run after a conversation update (the
`useEffect` on `items`): generate only when the trigger guard holds. -/
def onItemsUpdated (items : List Item) (connected : Bool)
    (storage : Store) (bookState : Option String)
    (gpt4Result : Except String String) : Store × Option String :=
  if shouldGenerateBook items then
    generateBookContent connected storage bookState gpt4Result
  else (storage, bookState)

/-- C5 counterexample: with a storage that holds both a transcript and a
book text, a page load restores neither — the initial state has an empty
transcript and no book content — and the transcript is never written
under any key by ConsolePage. -/
theorem pageLoad_no_restore_cex :
    pageLoadState [("conversationTranscript", "t"),
                   ("generatedBookContent", "b")] = ⟨[], none⟩ ∧
    (pageLoadState [("conversationTranscript", "t"),
                   ("generatedBookContent", "b")]).generatedBookContent ≠
      some "b" ∧
    "conversationTranscript" ∉ consoleStorageKeysWritten := by
  refine ⟨rfl, by decide, by decide⟩

/-- C5 amended: only the generated book text is persisted, as plain text
under the key `generatedBookContent`; the conversation transcript is not
persisted under any key, and a page reload restores neither — the state
initializes to an empty transcript and no book content regardless of
what storage holds. -/
theorem persistence_book_only (storage : Store) (bookState : Option String)
    (fullResponse : String) :
    (generateBookContent true storage bookState (.ok fullResponse)).1 =
      setItem storage "generatedBookContent" fullResponse ∧
    getItem (generateBookContent true storage bookState
        (.ok fullResponse)).1 "generatedBookContent" = some fullResponse ∧
    pageLoadState storage = ⟨[], none⟩ ∧
    "conversationTranscript" ∉ consoleStorageKeysWritten := by
  refine ⟨rfl, ?_, rfl, by decide⟩
  simp [generateBookContent, setItem, getItem]

/-- C9: the book generation is triggered exactly when the item list is
nonempty with last role `'user'`; when triggered while disconnected it
changes nothing; when triggered while connected and the GPT-4 call
succeeds it overwrites the stored book content under
`generatedBookContent` with the new text. -/
theorem generateBook_trigger_and_overwrite (items : List Item)
    (storage : Store) (bookState : Option String)
    (gpt4Result : Except String String) (fullResponse old : String)
    (hne : items ≠ []) :
    (shouldGenerateBook items = true ↔
      (items.getLast?.map (·.role)) = some "user") ∧
    (shouldGenerateBook items = false →
      onItemsUpdated items true storage bookState gpt4Result =
        (storage, bookState)) ∧
    onItemsUpdated items false storage bookState gpt4Result =
      (storage, bookState) ∧
    (shouldGenerateBook items = true →
      getItem (onItemsUpdated items true
          (setItem storage "generatedBookContent" old) bookState
          (.ok fullResponse)).1 "generatedBookContent" =
        some fullResponse) := by
  refine ⟨?_, ?_, ?_, ?_⟩
  · simp [shouldGenerateBook, List.length_pos, hne]
  · intro h
    simp [onItemsUpdated, h]
  · by_cases h : shouldGenerateBook items <;>
      simp [onItemsUpdated, h, generateBookContent]
  · intro h
    simp [onItemsUpdated, h, generateBookContent, setItem, getItem]

/-- Witness for C9: a one-item conversation ending in a user turn
triggers generation, is inert while disconnected, and overwrites a
previously stored book text on success. -/
theorem generateBook_trigger_and_overwrite_witness :
    (shouldGenerateBook [⟨"i1", "user", "hi"⟩] = true ↔
      (([⟨"i1", "user", "hi"⟩] : List Item).getLast?.map (·.role)) =
        some "user") ∧
    (shouldGenerateBook [⟨"i1", "user", "hi"⟩] = false →
      onItemsUpdated [⟨"i1", "user", "hi"⟩] true [] none (.ok "new book") =
        ([], none)) ∧
    onItemsUpdated [⟨"i1", "user", "hi"⟩] false [] none (.ok "new book") =
      ([], none) ∧
    (shouldGenerateBook [⟨"i1", "user", "hi"⟩] = true →
      getItem (onItemsUpdated [⟨"i1", "user", "hi"⟩] true
          (setItem [] "generatedBookContent" "old book") none
          (.ok "new book")).1 "generatedBookContent" = some "new book") :=
  generateBook_trigger_and_overwrite [⟨"i1", "user", "hi"⟩] [] none
    (.ok "new book") "new book" "old book" (by decide)

/-! Realtime event log (ConsolePage.tsx lines 496-507): consecutive
same-type events are aggregated into the previous entry's count. -/

/-- Stored entry of the realtime event log: source, event type, and the
optional aggregation count (absent until the first repeat). -/
structure LoggedEvent where
  source : String
  eventType : String
  count : Option Nat
deriving DecidableEq, Repr

/-- The update `lastEvent.count = (lastEvent.count || 0) + 1`. -/
def bumpCount (lastEvent : LoggedEvent) : LoggedEvent :=
  { lastEvent with count := some (lastEvent.count.getD 0 + 1) }

/-- Embedding of the `realtime.event` handler body: if the last stored
entry has the same event type, bump its count in place
(`realtimeEvents.slice(0, -1).concat(lastEvent)`), otherwise append a
fresh entry with no count. -/
def addRealtimeEvent (log : List LoggedEvent) (source eventType : String) :
    List LoggedEvent :=
  match log.getLast? with
  | some lastEvent =>
    if lastEvent.eventType == eventType then
      log.dropLast ++ [bumpCount lastEvent]
    else
      log ++ [⟨source, eventType, none⟩]
  | none => log ++ [⟨source, eventType, none⟩]

/-- The stored log after a sequence of arriving events, each given as a
source/event-type pair. -/
def processEvents (evs : List (String × String)) : List LoggedEvent :=
  evs.foldl (fun log e => addRealtimeEvent log e.1 e.2) []

/-- The run of arrivals an entry stands for: its event type repeated
count + 1 times. -/
def expandEntry (e : LoggedEvent) : List String :=
  List.replicate (e.count.getD 0 + 1) e.eventType

/-- Replaying every entry of the log as its run of arrivals. -/
def flattenLog (log : List LoggedEvent) : List String :=
  (log.map expandEntry).flatten

/-- Console state holding both the display log and the conversation
items; the `realtime.event` handler touches only the former. -/
structure LogAndItems where
  realtimeEvents : List LoggedEvent
  items : List Item
deriving DecidableEq, Repr

/-- The `realtime.event` handler on the combined state: it calls only
`setRealtimeEvents`. -/
def handleRealtimeEvent (st : LogAndItems) (source eventType : String) :
    LogAndItems :=
  { st with realtimeEvents :=
      addRealtimeEvent st.realtimeEvents source eventType }

theorem flattenLog_append (a b : List LoggedEvent) :
    flattenLog (a ++ b) = flattenLog a ++ flattenLog b := by
  simp [flattenLog]

theorem flattenLog_addRealtimeEvent (log : List LoggedEvent)
    (src ty : String) :
    flattenLog (addRealtimeEvent log src ty) = flattenLog log ++ [ty] := by
  cases hL : log.getLast? with
  | none =>
    have h0 : log = [] := List.getLast?_eq_none_iff.mp hL
    subst h0
    simp [addRealtimeEvent, flattenLog, expandEntry]
  | some lastEvent =>
    obtain ⟨ys, rfl⟩ := List.getLast?_eq_some_iff.mp hL
    by_cases hty : lastEvent.eventType = ty
    · subst hty
      simp [addRealtimeEvent, List.getLast?_concat, flattenLog,
            expandEntry, bumpCount, List.replicate_succ']
    · simp [addRealtimeEvent, List.getLast?_concat, hty, flattenLog,
            expandEntry]

theorem flattenLog_foldl (evs : List (String × String))
    (log : List LoggedEvent) :
    flattenLog (evs.foldl (fun l e => addRealtimeEvent l e.1 e.2) log) =
      flattenLog log ++ evs.map Prod.snd := by
  induction evs generalizing log with
  | nil => simp
  | cons e rest ih =>
    simp [List.foldl_cons, ih, flattenLog_addRealtimeEvent]

theorem chain'_addRealtimeEvent (log : List LoggedEvent) (src ty : String)
    (h : List.Chain' (fun a b => a.eventType ≠ b.eventType) log) :
    List.Chain' (fun a b => a.eventType ≠ b.eventType)
      (addRealtimeEvent log src ty) := by
  cases hL : log.getLast? with
  | none =>
    have h0 : log = [] := List.getLast?_eq_none_iff.mp hL
    subst h0
    simp [addRealtimeEvent]
  | some lastEvent =>
    obtain ⟨ys, rfl⟩ := List.getLast?_eq_some_iff.mp hL
    by_cases hty : lastEvent.eventType = ty
    · simp only [addRealtimeEvent, List.getLast?_concat, hty,
        beq_self_eq_true, if_true, List.dropLast_concat]
      rw [List.chain'_append] at h ⊢
      refine ⟨h.1, List.chain'_singleton _, ?_⟩
      intro x hx y hy
      simp only [List.head?_cons, Option.mem_def, Option.some.injEq] at hy
      subst hy
      have hr := h.2.2 x hx lastEvent (by simp)
      simpa [bumpCount] using hr
    · simp only [addRealtimeEvent, List.getLast?_concat,
        beq_eq_false_iff_ne, ne_eq, hty, not_false_eq_true,
        beq_iff_eq, if_neg hty, if_false]
      rw [List.chain'_append]
      refine ⟨h, List.chain'_singleton _, ?_⟩
      intro x hx y hy
      simp only [List.getLast?_concat, Option.mem_def,
        Option.some.injEq] at hx
      simp only [List.head?_cons, Option.mem_def, Option.some.injEq] at hy
      subst hx
      subst hy
      simpa using hty

theorem chain'_foldl (evs : List (String × String))
    (log : List LoggedEvent)
    (h : List.Chain' (fun a b => a.eventType ≠ b.eventType) log) :
    List.Chain' (fun a b => a.eventType ≠ b.eventType)
      (evs.foldl (fun l e => addRealtimeEvent l e.1 e.2) log) := by
  induction evs generalizing log with
  | nil => simpa using h
  | cons e rest ih =>
    simpa [List.foldl_cons] using ih _ (chain'_addRealtimeEvent log e.1 e.2 h)

/-- C8: for every arrival sequence, the stored log has no two adjacent
entries of equal event type, and replaying each entry as count + 1
arrivals of its type reproduces the arrival sequence exactly — so each
entry stands for one maximal same-type run with its repeat count;
moreover the handler changes only the display log, never the
conversation items. -/
theorem realtimeEvents_collapse_runs (evs : List (String × String)) :
    List.Chain' (fun a b => a.eventType ≠ b.eventType)
      (processEvents evs) ∧
    flattenLog (processEvents evs) = evs.map Prod.snd ∧
    ∀ (st : LogAndItems) (src ty : String),
      (handleRealtimeEvent st src ty).items = st.items := by
  refine ⟨?_, ?_, fun st src ty => rfl⟩
  · exact chain'_foldl evs [] (by simp)
  · simpa [flattenLog] using flattenLog_foldl evs []

end InterviewAI
